import Mathlib

/-!
Verification of the TTS generation script `lib/tts/generate.py` of the
nibbler repository.  The script is orchestration glue around three external
tools (piper, ForceAlign, ffmpeg); we embed its control flow shallowly:
subprocess outcomes and file contents form an environment the embedded
functions consume, file-system writes and printed lines are returned as
explicit effect data, and Python floats are modelled as exact rationals with
an explicit round-to-3-decimals function.
-/

/-- Silence padding added at the start of the audio, in seconds (150 ms),
constant SILENCE_PADDING_START of the script. -/
def SILENCE_PADDING_START : ℚ := 15 / 100

/-- Silence padding added at the end of the audio, in seconds (250 ms),
constant SILENCE_PADDING_END of the script. -/
def SILENCE_PADDING_END : ℚ := 25 / 100

/-- Model of the Python builtin round with ndigits 3, over exact rationals:
round to the nearest multiple of one thousandth. -/
def round3 (x : ℚ) : ℚ := (round (1000 * x) : ℚ) / 1000

/-- A word returned by the ForceAlign inference call, with its raw start and
end times in seconds (attributes word, time_start, time_end). -/
structure RawWord where
  word : String
  time_start : ℚ
  time_end : ℚ

/-- A word timing dict as built by extract_timestamps, with keys word, start
and end. -/
structure TimedWord where
  word : String
  start : ℚ
  end_ : ℚ

/-- Embedding of extract_timestamps: for each word of the aligner output,
record the word together with its raw start and end rounded to 3 decimals. -/
def extract_timestamps (words : List RawWord) : List TimedWord :=
  words.map (fun w =>
    { word := w.word, start := round3 w.time_start, end_ := round3 w.time_end })

/-- Embedding of the adjustment loop of process_text: add the start padding
to the start and the end and round to 3 decimals. -/
def adjust (ts : TimedWord) : TimedWord :=
  { ts with
    start := round3 (ts.start + SILENCE_PADDING_START),
    end_ := round3 (ts.end_ + SILENCE_PADDING_START) }

/-- Embedding of the total duration computation of process_text: the last
timestamp's end plus the end padding when the list is non-empty, else 0. -/
def total_duration (timestamps : List TimedWord) : ℚ :=
  match timestamps.getLast? with
  | some t => t.end_ + SILENCE_PADDING_END
  | none => 0

/-- A JSON value as produced by the json module; objects keep the insertion
order of their keys. -/
inductive JVal where
  | str (s : String)
  | num (q : ℚ)
  | arr (xs : List JVal)
  | obj (fields : List (String × JVal))

/-- Keys of a JSON object, in order; non-objects have no keys. -/
def JVal.keys : JVal → List String
  | .obj fields => fields.map Prod.fst
  | _ => []

/-- JSON encoding of one timestamp dict. -/
def timedWordJson (t : TimedWord) : JVal :=
  .obj [("word", .str t.word), ("start", .num t.start), ("end", .num t.end_)]

/-- The object passed to json.dump for the sidecar file: keys text,
timestamps and duration, in that insertion order. -/
def sidecarJson (text : String) (timestamps : List TimedWord) (duration : ℚ) : JVal :=
  .obj [("text", .str text),
        ("timestamps", .arr (timestamps.map timedWordJson)),
        ("duration", .num duration)]

/-- Outcomes of the external tools for one run: the piper return code and
stderr, the ForceAlign result (a word list, or the message of the exception
it raised), and the ffmpeg return code and stderr. -/
structure Env where
  piperExit : Int
  piperStderr : String
  alignResult : Except String (List RawWord)
  ffmpegExit : Int
  ffmpegStderr : String

/-- Exceptions that can escape process_text. -/
inductive PyError where
  | valueError (msg : String)
  | runtimeError (msg : String)
  | alignError (msg : String)

/-- Message of an exception, as rendered by the str builtin in the top-level
except block. -/
def PyError.message : PyError → String
  | .valueError m => m
  | .runtimeError m => m
  | .alignError m => m

/-- Observable file-system and subprocess effects of one process_text call:
whether the temporary raw-audio file exists, whether the final wav exists,
the object and indent handed to json.dump for the sidecar (when written),
and which subprocesses were invoked. -/
structure FS where
  tempExists : Bool
  wavExists : Bool
  jsonContent : Option (JVal × Option Nat)
  piperInvoked : Bool
  ffmpegInvoked : Bool

/-- Initial effect state: no files, no subprocess invoked. -/
def FS.init : FS :=
  { tempExists := false, wavExists := false, jsonContent := none,
    piperInvoked := false, ffmpegInvoked := false }

/-- Return dict of process_text: keys audio_path, timestamps_path and
timestamps. -/
structure ProcResult where
  audio_path : String
  timestamps_path : String
  timestamps : List TimedWord

/-- Model of Path.with_suffix for the extension-less base paths the CLI
requires: append the suffix. -/
def with_suffix (p suffix : String) : String := p ++ suffix

/-- Model of the str.strip method with no argument: drop leading and trailing
whitespace. -/
def strip (s : String) : String :=
  ⟨((s.data.dropWhile Char.isWhitespace).reverse.dropWhile Char.isWhitespace).reverse⟩

/-- The try block of process_text (piper invocation, alignment, timestamp
adjustment, ffmpeg padding, duration): the adjusted timestamps and the total
duration on success, together with the effects accumulated inside the block
(the temporary file exists throughout it). -/
def process_text_try (env : Env) :
    Except PyError (List TimedWord × ℚ) × FS :=
  let fs0 : FS := { FS.init with tempExists := true, piperInvoked := true }
  if env.piperExit ≠ 0 then
    (.error (.runtimeError ("Piper TTS failed: " ++ env.piperStderr)), fs0)
  else
    match env.alignResult with
    | .error m => (.error (.alignError m), fs0)
    | .ok words =>
        let timestamps := (extract_timestamps words).map adjust
        let fs1 := { fs0 with ffmpegInvoked := true }
        if env.ffmpegExit ≠ 0 then
          (.error (.runtimeError ("FFmpeg padding failed: " ++ env.ffmpegStderr)), fs1)
        else
          (.ok (timestamps, total_duration timestamps), { fs1 with wavExists := true })

/-- Embedding of process_text: strip the text, raise on empty input, create
the temporary raw-audio file, run the try block, delete the temporary file in
the finally clause, then write the JSON sidecar and build the return dict. -/
def process_text (env : Env) (text0 : String) (output_path : String) :
    Except PyError ProcResult × FS :=
  let text := strip text0
  if text = "" then (.error (.valueError "Empty text provided"), FS.init)
  else
    let wav_path := with_suffix output_path ".wav"
    let tryOut := process_text_try env
    let fsTry := tryOut.2
    let fs := if fsTry.tempExists then { fsTry with tempExists := false } else fsTry
    match tryOut.1 with
    | .error e => (.error e, fs)
    | .ok (timestamps, dur) =>
        let json_path := with_suffix output_path ".json"
        let fs2 := { fs with jsonContent := some (sidecarJson text timestamps dur, some 2) }
        (.ok { audio_path := wav_path, timestamps_path := json_path,
               timestamps := timestamps }, fs2)

/-- Parsed command line: the value of each option when supplied, and the
json-only flag. -/
structure CLI where
  text : Option String
  input : Option String
  output : Option String
  json_only : Bool

/-- The world one invocation interacts with: the contents of each file (or
the message of the IOError raised on opening it) and the external tool
outcomes. -/
structure World where
  readFile : String → Except String String
  env : Env

/-- One line printed during a run, tagged with its shape. -/
inductive OutEvent where
  | usageError (msg : String)
  | audioLine (path : String)
  | timestampsLine (path : String)
  | durationLine (q : ℚ)
  | wordsLine (n : Nat)
  | jsonLine (v : JVal)
  | errorJson (msg : String)
  | errorMsg (msg : String)
  | traceback (exc : String)

/-- Whether an output event goes to standard error rather than standard
output: usage errors, the error messages of the default mode, and interpreter
tracebacks. -/
def OutEvent.isStderr : OutEvent → Bool
  | .usageError _ => true
  | .errorMsg _ => true
  | .traceback _ => true
  | _ => false

/-- Outcome of one invocation of the program: the process exit code, the
printed events in order, whether the process died from an unhandled
exception, and the file effects. -/
structure MainResult where
  exitCode : Nat
  events : List OutEvent
  uncaught : Bool
  fs : FS

/-- Argparse validation of main: exactly one of the text and input options
(mutually exclusive required group) and the required output option; on a
usage error argparse terminates the process with exit status 2. -/
def argparseOk (cli : CLI) : Bool :=
  (cli.text.isSome != cli.input.isSome) && cli.output.isSome

/-- Opening and reading the input file (lines 206 to 207): the open of the
absent input path None raises a TypeError, and an unreadable file raises a
FileNotFoundError; neither open is inside the top-level except block. -/
def open_input (w : World) (cli : CLI) : Except String String :=
  match cli.input with
  | none => .error "TypeError"
  | some p =>
      match w.readFile p with
      | .ok contents => .ok contents
      | .error _ => .error "FileNotFoundError"

/-- Input resolution of main: the text option when truthy (the code tests
the truthiness of args.text, so the empty string falls through), otherwise
the contents of the input file. -/
def resolve_text (w : World) (cli : CLI) : Except String String :=
  match cli.text with
  | some t => if t ≠ "" then .ok t else open_input w cli
  | none => open_input w cli

/-- The object printed to stdout in json-only success mode: the return dict
of process_text, serialized on a single line. -/
def resultJson (r : ProcResult) : JVal :=
  .obj [("audio_path", .str r.audio_path),
        ("timestamps_path", .str r.timestamps_path),
        ("timestamps", .arr (r.timestamps.map timedWordJson))]

/-- Embedding of main: argparse validation, input resolution (outside the
except block), process_text inside the try, then either the single-line JSON
dump or the four-line summary; the summary indexes the last timestamp, and
the IndexError it raises on an empty list is caught by the same except block
as process_text failures. -/
def main_ (w : World) (cli : CLI) : MainResult :=
  if argparseOk cli then
    match resolve_text w cli with
    | .error exc =>
        { exitCode := 1, events := [.traceback exc], uncaught := true, fs := FS.init }
    | .ok text =>
        let out := (cli.output).getD ""
        let pr := process_text w.env text out
        match pr.1 with
        | .error e =>
            if cli.json_only then
              { exitCode := 1, events := [.errorJson e.message],
                uncaught := false, fs := pr.2 }
            else
              { exitCode := 1, events := [.errorMsg ("Error: " ++ e.message)],
                uncaught := false, fs := pr.2 }
        | .ok r =>
            if cli.json_only then
              { exitCode := 0, events := [.jsonLine (resultJson r)],
                uncaught := false, fs := pr.2 }
            else
              match r.timestamps.getLast? with
              | some t =>
                  { exitCode := 0,
                    events := [.audioLine r.audio_path,
                               .timestampsLine r.timestamps_path,
                               .durationLine t.end_,
                               .wordsLine r.timestamps.length],
                    uncaught := false, fs := pr.2 }
              | none =>
                  { exitCode := 1,
                    events := [.audioLine r.audio_path,
                               .timestampsLine r.timestamps_path,
                               .errorMsg "Error: list index out of range"],
                    uncaught := false, fs := pr.2 }
  else
    { exitCode := 2, events := [.usageError "usage"], uncaught := false, fs := FS.init }

/-- Adding an integer number of thousandths commutes with round3. -/
theorem round3_add_thousandth (x : ℚ) (k : ℤ) :
    round3 (x + k / 1000) = round3 x + k / 1000 := by
  unfold round3
  have h1 : 1000 * (x + (k : ℚ) / 1000) = 1000 * x + (k : ℚ) := by ring
  rw [h1, round_add_int]
  push_cast
  ring

/-- The value of round3 is a fixed point of round3. -/
theorem round3_round3 (x : ℚ) : round3 (round3 x) = round3 x := by
  unfold round3
  have h : (1000 : ℚ) * ((round (1000 * x) : ℚ) / 1000) = ((round (1000 * x) : ℤ) : ℚ) := by
    ring
  rw [h, round_intCast]

/-- Rounding before adding the start padding and rounding again gives the
same value as adding the padding and rounding once. -/
theorem round3_pad_collapse (x : ℚ) :
    round3 (round3 x + SILENCE_PADDING_START) = round3 (x + SILENCE_PADDING_START) := by
  have h150 : SILENCE_PADDING_START = ((150 : ℤ) : ℚ) / 1000 := by
    unfold SILENCE_PADDING_START
    norm_num
  rw [h150, round3_add_thousandth, round3_add_thousandth, round3_round3]

/-- round3 is monotone. -/
theorem round3_mono {x y : ℚ} (h : x ≤ y) : round3 x ≤ round3 y := by
  unfold round3
  have hr : round (1000 * x) ≤ round (1000 * y) := by
    rw [round_eq, round_eq]
    exact Int.floor_mono (by linarith)
  have hq : ((round (1000 * x) : ℤ) : ℚ) ≤ ((round (1000 * y) : ℤ) : ℚ) := by
    exact_mod_cast hr
  linarith

/-- An environment in which every external tool succeeds and the aligner
returns two words. -/
def envTwoWords : Env :=
  { piperExit := 0, piperStderr := "",
    alignResult := .ok [⟨"Hello", 1/10, 1/2⟩, ⟨"world", 3/5, 1⟩],
    ffmpegExit := 0, ffmpegStderr := "" }

/-- An environment in which the aligner returns no words. -/
def envNoWords : Env := { envTwoWords with alignResult := .ok [] }

/-- An environment in which the piper subprocess exits with status 1. -/
def envPiperFails : Env :=
  { envTwoWords with piperExit := 1, piperStderr := "piper: model not found" }

/-- A world whose files all read as a fixed greeting. -/
def worldOk : World := { readFile := fun _ => .ok "Hello world", env := envTwoWords }

/-- A world in which every file open raises an IOError. -/
def worldNoFile : World :=
  { readFile := fun _ => .error "No such file or directory", env := envTwoWords }

/-- Per word, extraction rounding followed by padding adjustment equals a
single rounding of the raw time plus the padding. -/
theorem extract_adjust_eq (words : List RawWord) :
    (extract_timestamps words).map adjust =
      words.map (fun w =>
        { word := w.word,
          start := round3 (w.time_start + SILENCE_PADDING_START),
          end_ := round3 (w.time_end + SILENCE_PADDING_START) }) := by
  unfold extract_timestamps
  rw [List.map_map]
  apply List.map_congr_left
  intro w _
  simp [adjust, Function.comp, round3_pad_collapse]

/-- C1: every sidecar timestamp equals the raw aligner value plus the start
padding rounded to 3 decimals; the double rounding the code performs (round
the raw value, add the padding, round again) collapses to a single rounding
of the raw value plus the padding; and the duration field is the last
adjusted end plus the end padding. -/
theorem C1_timestamp_arithmetic :
    (∀ words : List RawWord,
        (extract_timestamps words).map adjust =
          words.map (fun w =>
            { word := w.word,
              start := round3 (w.time_start + SILENCE_PADDING_START),
              end_ := round3 (w.time_end + SILENCE_PADDING_START) })) ∧
    (∀ x : ℚ,
        round3 (round3 x + SILENCE_PADDING_START) = round3 (x + SILENCE_PADDING_START)) ∧
    (∀ ts : List TimedWord, ∀ t, ts.getLast? = some t →
        total_duration ts = t.end_ + SILENCE_PADDING_END) := by
  refine ⟨extract_adjust_eq, round3_pad_collapse, ?_⟩
  intro ts t h
  unfold total_duration
  rw [h]

/-- Witness for C1 at a concrete one-word timestamp list. -/
theorem C1_timestamp_arithmetic_witness :
    total_duration [⟨"hi", 1/4, 1/2⟩] = 1/2 + SILENCE_PADDING_END :=
  C1_timestamp_arithmetic.2.2 [⟨"hi", 1/4, 1/2⟩] ⟨"hi", 1/4, 1/2⟩ rfl

/-- C6: on every execution path of process_text the temporary raw-audio file
does not survive the call: the returned effect state never holds the
temporary file. -/
theorem C6_temp_file_deleted (env : Env) (text out : String) :
    (process_text env text out).2.tempExists = false := by
  rcases h3 : env.alignResult with m | words <;>
    by_cases h1 : strip text = "" <;>
    by_cases h2 : env.piperExit = 0 <;>
    by_cases h4 : env.ffmpegExit = 0 <;>
    simp [process_text, process_text_try, h1, h2, h3, h4, FS.init]

/-- C7: when the aligner output has start at most end for each word and
non-decreasing start times, the rounded and padded timestamps written to the
sidecar keep both properties, the adjusting map being monotone. -/
theorem C7_order_preserved (words : List RawWord)
    (h1 : ∀ w ∈ words, w.time_start ≤ w.time_end)
    (h2 : words.Pairwise fun a b => a.time_start ≤ b.time_start) :
    (∀ t ∈ (extract_timestamps words).map adjust, t.start ≤ t.end_) ∧
    ((extract_timestamps words).map adjust).Pairwise
      (fun a b => a.start ≤ b.start) := by
  rw [extract_adjust_eq]
  constructor
  · intro t ht
    simp only [List.mem_map] at ht
    obtain ⟨w, hw, rfl⟩ := ht
    exact round3_mono (add_le_add_right (h1 w hw) _)
  · rw [List.pairwise_map]
    exact h2.imp fun hab => round3_mono (add_le_add_right hab _)

/-- Witness for C7 at a concrete two-word alignment. -/
theorem C7_order_preserved_witness :
    (∀ t ∈ (extract_timestamps
        [⟨"Hello", 1/10, 1/2⟩, ⟨"world", 3/5, 1⟩]).map adjust,
      t.start ≤ t.end_) ∧
    ((extract_timestamps
        [⟨"Hello", 1/10, 1/2⟩, ⟨"world", 3/5, 1⟩]).map adjust).Pairwise
      (fun a b => a.start ≤ b.start) :=
  C7_order_preserved [⟨"Hello", 1/10, 1/2⟩, ⟨"world", 3/5, 1⟩]
    (by norm_num [List.forall_mem_cons]) (by norm_num [List.pairwise_cons])

/-- On a non-zero piper exit status, process_text propagates the RuntimeError
holding the piper stderr; only the piper invocation is recorded and no file
survives. -/
theorem process_text_piper_fail (env : Env) (text out : String)
    (hp : env.piperExit ≠ 0) (ht : strip text ≠ "") :
    process_text env text out =
      (.error (.runtimeError ("Piper TTS failed: " ++ env.piperStderr)),
       { tempExists := false, wavExists := false, jsonContent := none,
         piperInvoked := true, ffmpegInvoked := false }) := by
  simp [process_text, process_text_try, ht, hp, FS.init]

/-- On success of all three tools and non-empty stripped text, process_text
returns the adjusted timestamps and writes the wav and the sidecar. -/
theorem process_text_success (env : Env) (text out : String) (words : List RawWord)
    (hp : env.piperExit = 0) (hal : env.alignResult = .ok words)
    (hf : env.ffmpegExit = 0) (ht : strip text ≠ "") :
    process_text env text out =
      (.ok { audio_path := with_suffix out ".wav",
             timestamps_path := with_suffix out ".json",
             timestamps := (extract_timestamps words).map adjust },
       { tempExists := false, wavExists := true,
         jsonContent := some
           (sidecarJson (strip text) ((extract_timestamps words).map adjust)
             (total_duration ((extract_timestamps words).map adjust)), some 2),
         piperInvoked := true, ffmpegInvoked := true }) := by
  simp [process_text, process_text_try, ht, hp, hal, hf, FS.init]

/-- C5: when the piper subprocess exits non-zero, process_text raises a
RuntimeError carrying the subprocess stderr, neither the final wav nor the
json sidecar is created, and the process exit code is 1. -/
theorem C5_synthesis_failure :
    (∀ env : Env, ∀ text out : String, env.piperExit ≠ 0 → strip text ≠ "" →
        (process_text env text out).1 =
          .error (.runtimeError ("Piper TTS failed: " ++ env.piperStderr)) ∧
        (process_text env text out).2.wavExists = false ∧
        (process_text env text out).2.jsonContent = none) ∧
    (∀ w : World, ∀ cli : CLI, ∀ text : String,
        argparseOk cli = true → resolve_text w cli = .ok text →
        w.env.piperExit ≠ 0 → strip text ≠ "" →
        (main_ w cli).exitCode = 1) := by
  constructor
  · intro env text out hp ht
    rw [process_text_piper_fail env text out hp ht]
    exact ⟨rfl, rfl, rfl⟩
  · intro w cli text ha hr hp ht
    simp only [main_, ha, if_true, hr,
      process_text_piper_fail w.env text ((cli.output).getD "") hp ht]
    split <;> rfl

/-- Witness for C5: a concrete run in which piper exits with status 1. -/
theorem C5_synthesis_failure_witness :
    (main_ (World.mk (fun _ => Except.ok "x") envPiperFails)
      (CLI.mk (some "Hello") none (some "o") false)).exitCode = 1 :=
  C5_synthesis_failure.2 (World.mk (fun _ => Except.ok "x") envPiperFails)
    (CLI.mk (some "Hello") none (some "o") false) "Hello"
    rfl rfl (by decide) (by decide)

/-- C8: a successful process_text call hands json.dump exactly the object
with keys text, timestamps and duration, in that order, with indent 2, and
the text field is the stripped input text. -/
theorem C8_sidecar_shape (env : Env) (text out : String) (r : ProcResult) (fs : FS)
    (h : process_text env text out = (.ok r, fs)) :
    (∃ dur, fs.jsonContent = some (sidecarJson (strip text) r.timestamps dur, some 2)) ∧
    ∀ dur : ℚ, ∀ ts : List TimedWord,
      (sidecarJson (strip text) ts dur).keys = ["text", "timestamps", "duration"] := by
  refine ⟨?_, fun dur ts => rfl⟩
  simp only [process_text] at h
  split at h
  · exact absurd h (by simp)
  · split at h
    · exact absurd h (by simp)
    · simp only [Prod.mk.injEq] at h
      obtain ⟨h1, h2⟩ := h
      injection h1 with h1
      subst h1
      subst h2
      exact ⟨_, rfl⟩

/-- Witness for C8 at a concrete successful two-word run. -/
theorem C8_sidecar_shape_witness :
    (∃ dur, ((process_text envTwoWords "Hello world" "o").2).jsonContent =
        some (sidecarJson (strip "Hello world")
          ((extract_timestamps [⟨"Hello", 1/10, 1/2⟩, ⟨"world", 3/5, 1⟩]).map adjust) dur,
          some 2)) ∧
    ∀ dur : ℚ, ∀ ts : List TimedWord,
      (sidecarJson (strip "Hello world") ts dur).keys =
        ["text", "timestamps", "duration"] :=
  C8_sidecar_shape envTwoWords "Hello world" "o"
    (ProcResult.mk (with_suffix "o" ".wav") (with_suffix "o" ".json")
      ((extract_timestamps [⟨"Hello", 1/10, 1/2⟩, ⟨"world", 3/5, 1⟩]).map adjust))
    ((process_text envTwoWords "Hello world" "o").2)
    (process_text_success envTwoWords "Hello world" "o"
      [⟨"Hello", 1/10, 1/2⟩, ⟨"world", 3/5, 1⟩] rfl rfl rfl (by decide))

/-- C9: when the aligner returns no words for non-empty stripped text,
process_text still writes the padded wav and the sidecar with an empty
timestamps list and duration 0, and in default mode the summary printing
indexes the empty list, so the run exits with code 1 after both files were
created. -/
theorem C9_empty_alignment (w : World) (cli : CLI) (text : String)
    (ha : argparseOk cli = true) (hr : resolve_text w cli = .ok text)
    (ht : strip text ≠ "") (hj : cli.json_only = false)
    (hp : w.env.piperExit = 0) (hal : w.env.alignResult = .ok [])
    (hf : w.env.ffmpegExit = 0) :
    (main_ w cli).exitCode = 1 ∧
    (main_ w cli).fs.wavExists = true ∧
    (main_ w cli).fs.jsonContent = some (sidecarJson (strip text) [] 0, some 2) ∧
    (main_ w cli).events =
      [.audioLine (with_suffix ((cli.output).getD "") ".wav"),
       .timestampsLine (with_suffix ((cli.output).getD "") ".json"),
       .errorMsg "Error: list index out of range"] := by
  have hps := process_text_success w.env text ((cli.output).getD "") [] hp hal hf ht
  simp only [main_, ha, if_true, hr, hps, hj]
  simp [extract_timestamps, total_duration]

/-- Witness for C9: a concrete run in which the aligner returns no words. -/
theorem C9_empty_alignment_witness :
    (main_ (World.mk (fun _ => Except.ok "x") envNoWords)
      (CLI.mk (some "Hello world") none (some "o") false)).exitCode = 1 :=
  (C9_empty_alignment (World.mk (fun _ => Except.ok "x") envNoWords)
    (CLI.mk (some "Hello world") none (some "o") false) "Hello world"
    rfl rfl (by decide) rfl rfl rfl rfl).1

/-- C10: a successful run in json-only mode prints exactly the return dict
of process_text on stdout, with keys audio_path, timestamps_path and
timestamps only. -/
theorem C10_json_only_output (w : World) (cli : CLI) (text : String) (r : ProcResult)
    (ha : argparseOk cli = true) (hr : resolve_text w cli = .ok text)
    (hj : cli.json_only = true)
    (hp : (process_text w.env text ((cli.output).getD "")).1 = .ok r) :
    (main_ w cli).exitCode = 0 ∧
    (main_ w cli).events = [.jsonLine (resultJson r)] ∧
    (resultJson r).keys = ["audio_path", "timestamps_path", "timestamps"] := by
  simp only [main_, ha, if_true, hr, hp, hj]
  exact ⟨trivial, trivial, rfl⟩

/-- Witness for C10: a concrete successful json-only run. -/
theorem C10_json_only_output_witness :
    (main_ (World.mk (fun _ => Except.ok "x") envTwoWords)
      (CLI.mk (some "Hello world") none (some "o") true)).exitCode = 0 :=
  (C10_json_only_output (World.mk (fun _ => Except.ok "x") envTwoWords)
    (CLI.mk (some "Hello world") none (some "o") true) "Hello world"
    (ProcResult.mk (with_suffix "o" ".wav") (with_suffix "o" ".json")
      ((extract_timestamps [⟨"Hello", 1/10, 1/2⟩, ⟨"world", 3/5, 1⟩]).map adjust))
    rfl rfl rfl
    (congrArg Prod.fst (process_text_success envTwoWords "Hello world" "o"
      [⟨"Hello", 1/10, 1/2⟩, ⟨"world", 3/5, 1⟩] rfl rfl rfl (by decide)))).1

/-- C2 counterexample: supplying both the text and the input options is a
usage error, and the process exit code is 2, not 1. -/
theorem C2_counterexample :
    (main_ worldOk (CLI.mk (some "hi") (some "a.txt") (some "out") false)).exitCode = 2 ∧
    (main_ worldOk (CLI.mk (some "hi") (some "a.txt") (some "out") false)).exitCode ≠ 1 := by
  exact ⟨rfl, by decide⟩

/-- Whether one invocation runs to normal completion: the arguments parse,
the input text is obtained, process_text returns its dict, and in default
mode the summary printing finds a last timestamp to index. -/
def runSucceeds (w : World) (cli : CLI) : Bool :=
  argparseOk cli &&
    match resolve_text w cli with
    | .error _ => false
    | .ok text =>
        match (process_text w.env text ((cli.output).getD "")).1 with
        | .error _ => false
        | .ok r =>
            cli.json_only ||
              match r.timestamps.getLast? with
              | some _ => true
              | none => false

/-- C2 amended: the exit code is always 0, 1 or 2; it is 0 exactly on
successful runs, 2 exactly on an argparse usage error (both or neither of
the text and input options, or a missing output option), and 1 exactly on
every other failure past argument parsing, caught or uncaught. -/
theorem C2_exit_codes (w : World) (cli : CLI) :
    ((main_ w cli).exitCode = 0 ∨ (main_ w cli).exitCode = 1 ∨
      (main_ w cli).exitCode = 2) ∧
    ((main_ w cli).exitCode = 0 ↔ runSucceeds w cli = true) ∧
    ((main_ w cli).exitCode = 1 ↔
      (argparseOk cli = true ∧ runSucceeds w cli = false)) ∧
    ((main_ w cli).exitCode = 2 ↔ argparseOk cli = false) := by
  simp only [main_]
  by_cases ha : argparseOk cli = true
  · rw [if_pos ha]
    split
    · simp_all [runSucceeds]
    · split
      · split <;> simp_all [runSucceeds]
      · split
        · simp_all [runSucceeds]
        · split <;> simp_all [runSucceeds]
  · rw [if_neg ha]
    simp only [Bool.not_eq_true] at ha
    simp [runSucceeds, ha]

/-- C3 counterexample: in json-only mode with an unreadable input file, the
IOError is raised by the file open placed before the try block, so the run
dies from an unhandled exception with an interpreter traceback and prints no
JSON error object on stdout. -/
theorem C3_counterexample :
    (main_ worldNoFile (CLI.mk none (some "missing.txt") (some "out") true)).uncaught
      = true ∧
    (main_ worldNoFile (CLI.mk none (some "missing.txt") (some "out") true)).events
      = [.traceback "FileNotFoundError"] :=
  ⟨rfl, rfl⟩

/-- C3 amended: an exception raised by process_text is caught at the top
level and surfaced as a stderr message in default mode or a JSON error
object on stdout in json-only mode, with exit code 1; but an IOError raised
while opening the input file is not caught: the run terminates with an
unhandled traceback and exit code 1, and no JSON error object is printed
even in json-only mode. -/
theorem C3_error_surfacing :
    (∀ w : World, ∀ cli : CLI, ∀ text : String, ∀ e : PyError,
        argparseOk cli = true → resolve_text w cli = .ok text →
        (process_text w.env text ((cli.output).getD "")).1 = .error e →
        (main_ w cli).exitCode = 1 ∧ (main_ w cli).uncaught = false ∧
        (main_ w cli).events =
          (if cli.json_only then [.errorJson e.message]
           else [.errorMsg ("Error: " ++ e.message)])) ∧
    (∀ w : World, ∀ cli : CLI, ∀ exc : String,
        argparseOk cli = true → resolve_text w cli = .error exc →
        (main_ w cli).exitCode = 1 ∧ (main_ w cli).uncaught = true ∧
        (main_ w cli).events = [.traceback exc]) := by
  constructor
  · intro w cli text e ha hr he
    simp only [main_, ha, if_true, hr, he]
    split <;> simp_all
  · intro w cli exc ha hr
    simp [main_, ha, hr]

/-- Witness for the amended C3: a concrete piper failure in json-only mode
is caught and surfaced as a JSON error object. -/
theorem C3_error_surfacing_witness :
    (main_ (World.mk (fun _ => Except.ok "x") envPiperFails)
      (CLI.mk (some "Hello") none (some "o") true)).exitCode = 1 :=
  (C3_error_surfacing.1 (World.mk (fun _ => Except.ok "x") envPiperFails)
    (CLI.mk (some "Hello") none (some "o") true) "Hello"
    (.runtimeError ("Piper TTS failed: " ++ envPiperFails.piperStderr))
    rfl rfl
    (congrArg Prod.fst (process_text_piper_fail envPiperFails "Hello" "o"
      (by decide) (by decide)))).1

/-- C4 counterexample: the empty string supplied as the text option is falsy,
so the code falls through to opening the absent input file: the run dies
from an uncaught TypeError rather than failing with the empty-input
ValueError. -/
theorem C4_counterexample :
    (main_ worldOk (CLI.mk (some "") none (some "out") false)).uncaught = true ∧
    (main_ worldOk (CLI.mk (some "") none (some "out") false)).events =
      [.traceback "TypeError"] :=
  ⟨rfl, rfl⟩

/-- C4 amended: text that strips to empty fails inside process_text with the
ValueError Empty text provided before any subprocess is invoked, which
covers whitespace-only text given as the text option and empty or
whitespace-only file contents; but the empty string given as the text
option never reaches process_text: being falsy it falls through to opening
the absent input file and the run dies from an uncaught TypeError, likewise
before any subprocess. -/
theorem C4_empty_input :
    (∀ env : Env, ∀ text out : String, strip text = "" →
        (process_text env text out).1 = .error (.valueError "Empty text provided") ∧
        (process_text env text out).2.piperInvoked = false ∧
        (process_text env text out).2.ffmpegInvoked = false) ∧
    (∀ w : World, ∀ cli : CLI, ∀ t : String,
        argparseOk cli = true → cli.text = some t → t ≠ "" → strip t = "" →
        cli.json_only = false →
        (main_ w cli).exitCode = 1 ∧
        (main_ w cli).events = [.errorMsg "Error: Empty text provided"] ∧
        (main_ w cli).fs.piperInvoked = false) ∧
    (∀ w : World, ∀ out : String,
        (main_ w (CLI.mk (some "") none (some out) false)).uncaught = true ∧
        (main_ w (CLI.mk (some "") none (some out) false)).events =
          [.traceback "TypeError"] ∧
        (main_ w (CLI.mk (some "") none (some out) false)).fs.piperInvoked = false) := by
  refine ⟨?_, ?_, ?_⟩
  · intro env text out ht
    simp [process_text, ht, FS.init]
  · intro w cli t ha hct hne hst hj
    have hr : resolve_text w cli = .ok t := by
      simp [resolve_text, hct, hne]
    have hpt : (process_text w.env t ((cli.output).getD "")).1 =
        .error (.valueError "Empty text provided") := by
      simp [process_text, hst]
    have hfs : (process_text w.env t ((cli.output).getD "")).2.piperInvoked = false := by
      simp [process_text, hst, FS.init]
    simp [main_, ha, hr, hpt, hj, PyError.message, hfs]
  · intro w out
    simp [main_, argparseOk, resolve_text, open_input, FS.init]

/-- Witness for the amended C4: whitespace-only text given as the text
option fails with the empty-input ValueError and exit code 1. -/
theorem C4_empty_input_witness :
    (main_ worldOk (CLI.mk (some " ") none (some "o") false)).exitCode = 1 :=
  (C4_empty_input.2.1 worldOk (CLI.mk (some " ") none (some "o") false) " "
    rfl rfl (by decide) (by decide) rfl).1
